import Mathlib

/-!
# bosh-ssh: a shallow embedding of `main.go`

The development models the four parts of `main.go` the specification talks
about:

* the instance filter (`matchesJobNames` and the loop of `main`, lines 74-80),
* the layout selector (the `layouts` map of `main`, lines 91-105),
* the pane builder (the tmux command sequence of `main`, lines 82-158),
* the session attacher (`attachToTmuxSession`, lines 166-202).

Conventions.

* Go `string` values are modelled by `String`; Go compares bytes, the model
  compares characters, which agrees on well-formed UTF-8 text.
* Go `int` values are modelled by `Int`; every integer of the program is
  bounded by the number of instances, so no 64-bit overflow can occur.
* An external command is its argument vector (`Cmd`).  The outcome of
  `cmd.Run()` is supplied by an environment `Exec`: a function of the commands
  issued so far and of the command being run.  The trace lists every command
  that was issued, a failing one included.
* Output written with `fmt.Printf` and `fmt.Println` is not part of the model.
* A Go panic is an explicit result (`Outcome.panic`).
-/

namespace BoshSsh

/-! ## Data model -/

/-- The struct `Layout` of `main.go`. -/
structure Layout where
  Width : Int
  Height : Int
deriving DecidableEq, Repr

/-- An instance as delivered by `dep.Instances()`: only `Group` and `ID` are read. -/
structure Instance where
  Group : String
  ID : String
deriving DecidableEq, Repr

/-- An external command: the full argument vector, program name first. -/
abbrev Cmd := List String

/-- The values a run can panic with. -/
inductive PanicValue where
  /-- Go runtime error `index out of range [index] with length length`. -/
  | indexOutOfRange (index length : Nat)
  /-- Go runtime error `slice bounds out of range [low:length]`. -/
  | sliceBoundsOutOfRange (low length : Nat)
  /-- The call `panic(err)` with the error returned by `Run()` on a command. -/
  | commandFailed (cmd : Cmd)
deriving DecidableEq, Repr

/-- How a piece of the program ends: normally with a value, with a panic, or,
for the loops, by exhausting the iteration budget of the model. -/
inductive Outcome (α : Type) where
  | ok (a : α)
  | panic (p : PanicValue)
  | outOfFuel
deriving DecidableEq, Repr

/-- The environment deciding `cmd.Run()`: `exec trace cmd` is `true` when the
command `cmd`, run after the commands of `trace`, returns a nil error. -/
abbrev Exec := List Cmd → Cmd → Bool

/-! ## Instance filter -/

/-- The function `strings.HasPrefix(s, prefix)`:
`len(s) >= len(prefix) && s[0:len(prefix)] == prefix`. -/
def HasPrefix (s pfx : String) : Bool :=
  decide (pfx.data.length ≤ s.data.length) && (s.data.take pfx.data.length == pfx.data)

/-- The loop `for _, arg := range argsWithoutProg` of `matchesJobNames`. -/
def matchesLoop (jobName : String) : List String → Bool
  | [] => false
  | arg :: rest => if HasPrefix jobName arg then true else matchesLoop jobName rest

/-- The function `matchesJobNames`; `osArgs` is `os.Args`.  The slice
expression `os.Args[3:]` panics when `os.Args` has fewer than three elements. -/
def matchesJobNames (osArgs : List String) (jobName : String) : Outcome Bool :=
  if 3 ≤ osArgs.length then
    Outcome.ok (matchesLoop jobName (osArgs.drop 3))
  else
    Outcome.panic (PanicValue.sliceBoundsOutOfRange 3 osArgs.length)

/-- The string `fmt.Sprintf("%s/%s", instance.Group, instance.ID)`. -/
def jobString (i : Instance) : String :=
  i.Group ++ "/" ++ i.ID

/-- The loop `for _, instance := range instances` of `main` (lines 76-80),
started with the slice `jobsNames` built so far. -/
def filterLoop (osArgs : List String) : List Instance → List String → Outcome (List String)
  | [], jobsNames => Outcome.ok jobsNames
  | inst :: rest, jobsNames =>
    match matchesJobNames osArgs (jobString inst) with
    | Outcome.ok true => filterLoop osArgs rest (jobsNames ++ [jobString inst])
    | Outcome.ok false => filterLoop osArgs rest jobsNames
    | Outcome.panic p => Outcome.panic p
    | Outcome.outOfFuel => Outcome.outOfFuel

/-- The instance filter: lines 74-80 of `main`, `jobsNames := []string{}` first. -/
def instanceFilter (osArgs : List String) (instances : List Instance) : Outcome (List String) :=
  filterLoop osArgs instances []

/-! ## Layout selector -/

/-- The entries stored in the map `layouts` (lines 92-101), key first. -/
def layoutsTable : List (Int × Layout) :=
  [ (1, { Height := 1, Width := 1 }),
    (2, { Height := 2, Width := 1 }),
    (3, { Height := 2, Width := 2 }),
    (4, { Height := 2, Width := 2 }),
    (5, { Height := 2, Width := 3 }),
    (6, { Height := 2, Width := 3 }),
    (7, { Height := 3, Width := 3 }),
    (8, { Height := 3, Width := 3 }),
    (9, { Height := 3, Width := 3 }),
    (10, { Height := 4, Width := 3 }) ]

/-- The map index expression `layouts[jobCount]`: the stored entry, or the zero
value of `Layout` when the key is absent. -/
def layouts (jobCount : Int) : Layout :=
  match layoutsTable.lookup jobCount with
  | some l => l
  | none => { Width := 0, Height := 0 }

/-! ## Pane builder -/

/-- The string `fmt.Sprintf("bosh -d %s ssh %s", deploymentName, job)`. -/
def boshSSHCmd (deploymentName job : String) : String :=
  "bosh -d " ++ deploymentName ++ " ssh " ++ job

/-- The command of line 83. -/
def newSessionCmd (boshCmd : String) : Cmd :=
  ["tmux", "new-session", "-s", "bosh-ssh", "-d", boshCmd]

/-- The command of line 113. -/
def splitVCmd (boshCmd : String) : Cmd :=
  ["tmux", "split-window", "-v", boshCmd]

/-- The command of line 123. -/
def selectLayoutCmd : Cmd :=
  ["tmux", "select-layout", "even-vertical"]

/-- The function `strconv.Itoa`. -/
def Itoa (n : Int) : String :=
  toString n

/-- The command of line 135. -/
def splitHCmd (y : Int) (boshCmd : String) : Cmd :=
  ["tmux", "split-window", "-t", Itoa y, "-h", boshCmd]

/-- The command of line 155. -/
def setwCmd : Cmd :=
  ["tmux", "setw", "synchronize-panes"]

/-- The loop of lines 109-121, `for y := 1; y < layout.Height; y++`, from the
state `(y, totalPanes)` with the commands `tr` issued so far.  It returns the
value of `totalPanes` at the exit of the loop. -/
def vsplitLoop (exec : Exec) (deploymentName : String) (jobsNames : List String)
    (layout : Layout) : Nat → Int → Nat → List Cmd → Outcome Nat × List Cmd
  | 0, y, totalPanes, tr =>
    if y < layout.Height then (Outcome.outOfFuel, tr) else (Outcome.ok totalPanes, tr)
  | fuel + 1, y, totalPanes, tr =>
    if y < layout.Height then
      match jobsNames[totalPanes]? with
      | none => (Outcome.panic (PanicValue.indexOutOfRange totalPanes jobsNames.length), tr)
      | some job =>
        let c := splitVCmd (boshSSHCmd deploymentName job)
        if exec tr c then
          if totalPanes + 1 ≥ jobsNames.length then
            (Outcome.ok (totalPanes + 1), tr ++ [c])
          else
            vsplitLoop exec deploymentName jobsNames layout fuel (y + 1) (totalPanes + 1)
              (tr ++ [c])
        else
          (Outcome.panic (PanicValue.commandFailed c), tr ++ [c])
    else
      (Outcome.ok totalPanes, tr)

/-- The loop of lines 128-153, `for totalPanes < jobCount`, from the state
`(x, y, totalPanes)` with the commands `tr` issued so far. -/
def hsplitLoop (exec : Exec) (deploymentName : String) (jobsNames : List String)
    (layout : Layout) : Nat → Int → Int → Nat → List Cmd → Outcome Unit × List Cmd
  | 0, _, _, totalPanes, tr =>
    if totalPanes < jobsNames.length then (Outcome.outOfFuel, tr) else (Outcome.ok (), tr)
  | fuel + 1, x, y, totalPanes, tr =>
    if totalPanes < jobsNames.length then
      match jobsNames[totalPanes]? with
      | none => (Outcome.panic (PanicValue.indexOutOfRange totalPanes jobsNames.length), tr)
      | some job =>
        let c := splitHCmd y (boshSSHCmd deploymentName job)
        if exec tr c then
          if totalPanes + 1 ≥ jobsNames.length then
            (Outcome.ok (), tr ++ [c])
          else
            let x1 := x + 1
            let x2 := if x1 ≥ layout.Width - 1 then 0 else x1
            let y2 := if x1 ≥ layout.Width - 1 then y + 1 else y
            if y2 ≥ layout.Height then
              (Outcome.ok (), tr ++ [c])
            else
              hsplitLoop exec deploymentName jobsNames layout fuel x2 y2 (totalPanes + 1)
                (tr ++ [c])
        else
          (Outcome.panic (PanicValue.commandFailed c), tr ++ [c])
    else
      (Outcome.ok (), tr)

/-- The pane builder: lines 82-158 of `main`, given the deployment name and
the slice `jobsNames` left by the instance filter.  The result is the way the
run ends together with every tmux command issued, in issue order.  The error
of `select-layout` (line 123) is discarded by the source, so the environment
is consulted for it but its answer is not used. -/
def paneBuilder (exec : Exec) (deploymentName : String) (jobsNames : List String) :
    Outcome Unit × List Cmd :=
  match jobsNames[0]? with
  | none => (Outcome.panic (PanicValue.indexOutOfRange 0 jobsNames.length), [])
  | some job0 =>
    let c0 := newSessionCmd (boshSSHCmd deploymentName job0)
    if exec [] c0 then
      let layout := layouts (jobsNames.length : Int)
      match vsplitLoop exec deploymentName jobsNames layout layout.Height.toNat 1 1 [c0] with
      | (Outcome.ok totalPanes, tr1) =>
        let _ignored := exec tr1 selectLayoutCmd
        match hsplitLoop exec deploymentName jobsNames layout jobsNames.length 0 0 totalPanes
            (tr1 ++ [selectLayoutCmd]) with
        | (Outcome.ok _, tr2) =>
          if exec tr2 setwCmd then
            (Outcome.ok (), tr2 ++ [setwCmd])
          else
            (Outcome.panic (PanicValue.commandFailed setwCmd), tr2 ++ [setwCmd])
        | (Outcome.panic p, tr2) => (Outcome.panic p, tr2)
        | (Outcome.outOfFuel, tr2) => (Outcome.outOfFuel, tr2)
      | (Outcome.panic p, tr1) => (Outcome.panic p, tr1)
      | (Outcome.outOfFuel, tr1) => (Outcome.outOfFuel, tr1)
    else
      (Outcome.panic (PanicValue.commandFailed c0), [c0])

/-- Lines 74-158 of `main`: the instance filter followed by the pane builder. -/
def filterAndBuild (exec : Exec) (osArgs : List String) (deploymentName : String)
    (instances : List Instance) : Outcome Unit × List Cmd :=
  match instanceFilter osArgs instances with
  | Outcome.ok jobsNames => paneBuilder exec deploymentName jobsNames
  | Outcome.panic p => (Outcome.panic p, [])
  | Outcome.outOfFuel => (Outcome.outOfFuel, [])

/-- The environment in which every command succeeds. -/
def allSucceed : Exec := fun _ _ => true

/-! ## Reading a trace -/

/-- A command that creates a pane: `tmux new-session` or `tmux split-window`. -/
def isPaneCreating (c : Cmd) : Bool :=
  c.take 2 == ["tmux", "new-session"] || c.take 2 == ["tmux", "split-window"]

/-- The pane-creating commands of a trace, in issue order. -/
def paneCommands (tr : List Cmd) : List Cmd :=
  tr.filter isPaneCreating

/-- The number of panes a trace creates: the pane of `new-session` plus one for
each `split-window`. -/
def paneCount (tr : List Cmd) : Nat :=
  (paneCommands tr).length

/-- The shell command a pane-creating command hands to tmux: its last argument. -/
def shellCommand (c : Cmd) : Option String :=
  c.getLast?

/-! ## The command sequence in the words of the specification -/

/-- The table of the specification, count to `(rows, columns)`. -/
def specShape (N : Int) : Option (Int × Int) :=
  if N = 1 then some (1, 1) else
  if N = 2 then some (2, 1) else
  if N = 3 then some (2, 2) else
  if N = 4 then some (2, 2) else
  if N = 5 then some (2, 3) else
  if N = 6 then some (2, 3) else
  if N = 7 then some (3, 3) else
  if N = 8 then some (3, 3) else
  if N = 9 then some (3, 3) else
  if N = 10 then some (4, 3) else none

/-- The number of rows the specification's table gives for `N` instances. -/
def specRows (N : Nat) : Nat :=
  match specShape (N : Int) with
  | some rc => rc.1.toNat
  | none => 0

/-- The number of columns the specification's table gives for `N` instances. -/
def specColumns (N : Nat) : Nat :=
  match specShape (N : Int) with
  | some rc => rc.2.toNat
  | none => 0

/-- The number of vertical splits the specification announces: `min(rows-1, N-1)`. -/
def specVertical (N : Nat) : Nat :=
  min (specRows N - 1) (N - 1)

/-- The number of horizontal splits the specification announces:
`N-1-min(rows-1, N-1)`. -/
def specHorizontal (N : Nat) : Nat :=
  N - 1 - specVertical N

/-- The row the `k`-th horizontal split targets according to the
specification: `floor(k / (columns-1))`. -/
def specRowOf (N k : Nat) : Nat :=
  k / (specColumns N - 1)

/-- The command sequence the specification announces for the matched instances
`names`, every argument vector written out in full: one `new-session`, the
vertical splits, `select-layout even-vertical`, the horizontal splits with
their target rows in decimal, `setw synchronize-panes`; the instances are
consumed in order and each pane runs `bosh -d <deployment> ssh <instance>`. -/
def specSequence (deploymentName : String) (names : List String) : List Cmd :=
  (names.take 1).map
      (fun j => ["tmux", "new-session", "-s", "bosh-ssh", "-d",
        "bosh -d " ++ deploymentName ++ " ssh " ++ j])
  ++ ((names.drop 1).take (specVertical names.length)).map
      (fun j => ["tmux", "split-window", "-v", "bosh -d " ++ deploymentName ++ " ssh " ++ j])
  ++ [["tmux", "select-layout", "even-vertical"]]
  ++ (((names.drop (1 + specVertical names.length)).take (specHorizontal names.length)).enum).map
      (fun kj => ["tmux", "split-window", "-t", toString (specRowOf names.length kj.1), "-h",
        "bosh -d " ++ deploymentName ++ " ssh " ++ kj.2])
  ++ [["tmux", "setw", "synchronize-panes"]]

/-- The sequence `specSequence` assembled with the command constructors of the
pane builder; an auxiliary form used in the proofs. -/
def cmdSequence (deploymentName : String) (names : List String) : List Cmd :=
  (names.take 1).map (fun j => newSessionCmd (boshSSHCmd deploymentName j))
  ++ ((names.drop 1).take (specVertical names.length)).map
      (fun j => splitVCmd (boshSSHCmd deploymentName j))
  ++ [selectLayoutCmd]
  ++ (((names.drop (1 + specVertical names.length)).take (specHorizontal names.length)).enum).map
      (fun kj => splitHCmd ((specRowOf names.length kj.1 : Nat) : Int)
        (boshSSHCmd deploymentName kj.2))
  ++ [setwCmd]

/-- The matching rule of the specification: the `group/id` string of the
instance has one of the supplied strings as a prefix. -/
def specMatches (prefixes : List String) (i : Instance) : Bool :=
  prefixes.any (fun p => p.data.isPrefixOf (i.Group ++ "/" ++ i.ID).data)

/-! ## Session attacher -/

/-- The life cycle of the pseudo-terminal handle `ptmx`. -/
inductive PtyHandle where
  | unallocated
  | opened
  | closed
deriving DecidableEq, Repr

/-- The state `attachToTmuxSession` acts on: the mode of the controlling
terminal (`os.Stdin`) and the pseudo-terminal handle. -/
structure AttachState (Mode : Type) where
  termMode : Mode
  pty : PtyHandle

/-- The environment of one run of `attachToTmuxSession`: the outcome of every
call of the function that returns an error. -/
structure AttachEnv (Mode : Type) where
  /-- The call `pty.Start(cmd)` returns a nil error. -/
  startOk : Bool
  /-- The call `terminal.MakeRaw` returns a nil error. -/
  makeRawOk : Bool
  /-- The raw mode `terminal.MakeRaw` switches a terminal to. -/
  rawMode : Mode → Mode
  /-- The call `io.Copy(os.Stdout, ptmx)` ends with an error instead of end of stream. -/
  copyFails : Bool
  /-- The deferred call `terminal.Restore` returns a nil error. -/
  restoreOk : Bool
  /-- The deferred call `ptmx.Close()` returns a nil error. -/
  closeOk : Bool

/-- The two deferred calls of `attachToTmuxSession`. -/
inductive Deferred (Mode : Type) where
  /-- The deferred `ptmx.Close()`. -/
  | closePty
  /-- The deferred `terminal.Restore(fd, oldState)`. -/
  | restore (oldState : Mode)
deriving DecidableEq, Repr

/-- The effect of one deferred call.  A call that succeeds has its effect; a
call that returns an error leaves the state as it is, and the error is
discarded (`_ = ...`, "Best effort" in the source). -/
def runDeferredCall {Mode : Type} (env : AttachEnv Mode) :
    Deferred Mode → AttachState Mode → AttachState Mode
  | Deferred.closePty, s => if env.closeOk then { s with pty := PtyHandle.closed } else s
  | Deferred.restore oldState, s => if env.restoreOk then { s with termMode := oldState } else s

/-- The deferred calls run when the function exits, by return or by panic, the
most recently deferred first; the head of the list is the most recent one. -/
def runDeferred {Mode : Type} (env : AttachEnv Mode) :
    List (Deferred Mode) → AttachState Mode → AttachState Mode
  | [], s => s
  | d :: ds, s => runDeferred env ds (runDeferredCall env d s)

/-- How `attachToTmuxSession` exits. -/
inductive AttachExit where
  /-- The statement `return err` after a failed `pty.Start`. -/
  | returnedErr
  /-- The statement `return nil` at the end. -/
  | returnedNil
  /-- The statement `panic(err)` after a failed `terminal.MakeRaw`. -/
  | panicked
deriving DecidableEq, Repr

/-- The result of one run of `attachToTmuxSession`: how it exits, the state it
leaves, and the deferred calls it made on exit, in the order they ran. -/
structure AttachResult (Mode : Type) where
  exit : AttachExit
  state : AttachState Mode
  deferredCalls : List (Deferred Mode)

/-- The function `attachToTmuxSession` on the explicit state.  The goroutines
forwarding window sizes and copying standard input touch neither component of
the state and are left out; the result of the copy loop is discarded, as in
the source. -/
def attachToTmuxSession {Mode : Type} (env : AttachEnv Mode) (s : AttachState Mode) :
    AttachResult Mode :=
  if env.startOk then
    let s1 : AttachState Mode := { s with pty := PtyHandle.opened }
    let defers : List (Deferred Mode) := [Deferred.closePty]
    if env.makeRawOk then
      let oldState := s1.termMode
      let s2 : AttachState Mode := { s1 with termMode := env.rawMode s1.termMode }
      let defers := Deferred.restore oldState :: defers
      let _copyErr := env.copyFails
      { exit := AttachExit.returnedNil, state := runDeferred env defers s2,
        deferredCalls := defers }
    else
      { exit := AttachExit.panicked, state := runDeferred env defers s1,
        deferredCalls := defers }
  else
    { exit := AttachExit.returnedErr, state := s, deferredCalls := [] }

/-! ## Fixed inputs used in the results -/

/-- The environment in which `select-layout` fails and every other command succeeds. -/
def failSelectLayout : Exec := fun _ c => c != selectLayoutCmd

/-- The five instances of the end-to-end scenario of the specification. -/
def scenarioInstances : List Instance :=
  [ { Group := "db", ID := "0" }, { Group := "db", ID := "1" }, { Group := "web", ID := "0" },
    { Group := "web", ID := "1" }, { Group := "web", ID := "2" } ]

/-- Eleven matched instances, one more than the layout table covers. -/
def elevenJobs : List String :=
  ["web/0", "web/1", "web/2", "web/3", "web/4", "web/5", "web/6", "web/7", "web/8", "web/9",
    "web/10"]

/-- Ten matched instances, the largest count the layout table covers. -/
def tenJobs : List String :=
  ["web/0", "web/1", "web/2", "web/3", "web/4", "web/5", "web/6", "web/7", "web/8", "web/9"]

/-- A terminal with two modes, `false` for the original mode and `true` for
raw mode, in which every call of `attachToTmuxSession` succeeds. -/
def attachAllOk : AttachEnv Bool :=
  { startOk := true, makeRawOk := true, rawMode := fun _ => true, copyFails := false,
    restoreOk := true, closeOk := true }

/-- The same terminal when the copy loop fails and the deferred
`terminal.Restore` returns an error. -/
def attachRestoreFails : AttachEnv Bool :=
  { startOk := true, makeRawOk := true, rawMode := fun _ => true, copyFails := true,
    restoreOk := false, closeOk := true }

/-! ## Instance filter: results -/

theorem hasPrefix_iff (s p : String) : HasPrefix s p = true ↔ ∃ t : String, s = p ++ t := by
  unfold HasPrefix
  constructor
  · intro h
    simp only [Bool.and_eq_true, decide_eq_true_eq, beq_iff_eq] at h
    refine ⟨⟨s.data.drop p.data.length⟩, ?_⟩
    apply String.ext
    rw [String.data_append]
    conv_lhs => rw [← List.take_append_drop p.data.length s.data]
    rw [h.2]
  · rintro ⟨t, rfl⟩
    simp [String.data_append]

theorem matchesLoop_eq_any (jobName : String) (args : List String) :
    matchesLoop jobName args = args.any (fun p => HasPrefix jobName p) := by
  induction args with
  | nil => rfl
  | cons a rest ih =>
    simp only [matchesLoop, List.any_cons, ih]
    cases HasPrefix jobName a <;> simp

theorem filterLoop_eq (a b c : String) (prefixes : List String) (instances : List Instance)
    (acc : List String) :
    filterLoop (a :: b :: c :: prefixes) instances acc
      = Outcome.ok (acc ++ (instances.filter
          (fun i => prefixes.any (fun p => HasPrefix (jobString i) p))).map jobString) := by
  induction instances generalizing acc with
  | nil => simp [filterLoop]
  | cons i rest ih =>
    have hm : matchesJobNames (a :: b :: c :: prefixes) (jobString i)
        = Outcome.ok (prefixes.any (fun p => HasPrefix (jobString i) p)) := by
      simp [matchesJobNames, matchesLoop_eq_any]
    cases hb : prefixes.any (fun p => HasPrefix (jobString i) p) with
    | true =>
      rw [filterLoop, hm, hb]
      simp only [ih, List.filter_cons, hb]
      simp
    | false =>
      rw [filterLoop, hm, hb]
      simp only [ih, List.filter_cons, hb]
      simp

theorem hasPrefix_eq_isPrefixOf (s p : String) :
    HasPrefix s p = p.data.isPrefixOf s.data := by
  rw [Bool.eq_iff_iff, hasPrefix_iff, List.isPrefixOf_iff_prefix]
  constructor
  · rintro ⟨t, rfl⟩
    exact ⟨t.data, (String.data_append p t).symm⟩
  · rintro ⟨l, hl⟩
    refine ⟨⟨l⟩, ?_⟩
    apply String.ext
    rw [String.data_append, ← hl]

theorem specMatches_eq (prefixes : List String) (i : Instance) :
    prefixes.any (fun p => HasPrefix (jobString i) p) = specMatches prefixes i := by
  unfold specMatches jobString
  congr 1
  funext p
  exact hasPrefix_eq_isPrefixOf _ p

theorem specMatches_iff (prefixes : List String) (i : Instance) :
    specMatches prefixes i = true
      ↔ ∃ p ∈ prefixes, ∃ t : String, i.Group ++ "/" ++ i.ID = p ++ t := by
  rw [← specMatches_eq, List.any_eq_true]
  constructor
  · rintro ⟨p, hp, h⟩
    exact ⟨p, hp, (hasPrefix_iff _ p).mp h⟩
  · rintro ⟨p, hp, h⟩
    exact ⟨p, hp, (hasPrefix_iff _ p).mpr h⟩

/-- With fewer than three elements in `os.Args` the slice expression
`os.Args[3:]` panics at the first instance that is tested. -/
theorem instanceFilter_short_args (osArgs : List String) (i : Instance)
    (rest : List Instance) (h : osArgs.length < 3) :
    instanceFilter osArgs (i :: rest)
      = Outcome.panic (PanicValue.sliceBoundsOutOfRange 3 osArgs.length) := by
  have hn : ¬ 3 ≤ osArgs.length := by omega
  simp [instanceFilter, filterLoop, matchesJobNames, hn]

/-- C2. With `os.Args = a :: b :: c :: prefixes`, the instance filter returns
the strings `Group/ID` of exactly the instances for which some element of
`prefixes` is a prefix of that string, in their original order and once each,
also when several prefixes match; no prefix or no instance gives the empty
result.  The last two conjuncts run the filter on the five instances of the
specification's scenario. -/
theorem instanceFilter_spec (a b c : String) (prefixes : List String)
    (instances : List Instance) :
    instanceFilter (a :: b :: c :: prefixes) instances
        = Outcome.ok ((instances.filter (specMatches prefixes)).map
            (fun i => i.Group ++ "/" ++ i.ID))
      ∧ (∀ i : Instance, specMatches prefixes i = true
          ↔ ∃ p ∈ prefixes, ∃ t : String, i.Group ++ "/" ++ i.ID = p ++ t)
      ∧ (∀ s p : String, HasPrefix s p = true ↔ ∃ t : String, s = p ++ t)
      ∧ List.Sublist ((instances.filter (specMatches prefixes)).map
            (fun i => i.Group ++ "/" ++ i.ID))
          (instances.map (fun i => i.Group ++ "/" ++ i.ID))
      ∧ instanceFilter [a, b, c] instances = Outcome.ok []
      ∧ instanceFilter (a :: b :: c :: prefixes) [] = Outcome.ok []
      ∧ instanceFilter [a, b, c, "web"] scenarioInstances
          = Outcome.ok ["web/0", "web/1", "web/2"]
      ∧ instanceFilter [a, b, c, "web", "web/1", "db/1", "w"] scenarioInstances
          = Outcome.ok ["db/1", "web/0", "web/1", "web/2"] := by
  have hfun : (fun i => prefixes.any (fun p => HasPrefix (jobString i) p))
      = specMatches prefixes := funext (specMatches_eq prefixes)
  have hjob : jobString = fun i => i.Group ++ "/" ++ i.ID := rfl
  have hgen : ∀ (ps : List String) (l : List Instance),
      instanceFilter (a :: b :: c :: ps) l
        = Outcome.ok ((l.filter (specMatches ps)).map (fun i => i.Group ++ "/" ++ i.ID)) := by
    intro ps l
    have hf : (fun i => ps.any (fun p => HasPrefix (jobString i) p)) = specMatches ps :=
      funext (specMatches_eq ps)
    unfold instanceFilter
    rw [filterLoop_eq, hf, hjob]
    simp
  refine ⟨hgen prefixes instances, specMatches_iff prefixes, hasPrefix_iff, ?_, ?_, ?_, ?_, ?_⟩
  · exact List.Sublist.map _ (List.filter_sublist _)
  · rw [hgen]
    simp [specMatches]
  · rw [hgen]
    simp
  · rfl
  · rfl

theorem instanceFilter_spec_witness :
    instanceFilter ["bosh-ssh", "-d", "dep", "web", "db/1"] scenarioInstances
        = Outcome.ok ((scenarioInstances.filter (specMatches ["web", "db/1"])).map
            (fun i => i.Group ++ "/" ++ i.ID))
      ∧ (scenarioInstances.filter (specMatches ["web", "db/1"])).map
            (fun i => i.Group ++ "/" ++ i.ID)
          = ["db/1", "web/0", "web/1", "web/2"]
      ∧ instanceFilter ["bosh-ssh", "-d", "dep", "web", "db/1"] scenarioInstances
          = Outcome.ok ["db/1", "web/0", "web/1", "web/2"] :=
  ⟨(instanceFilter_spec "bosh-ssh" "-d" "dep" ["web", "db/1"] scenarioInstances).1,
    by decide, by decide⟩

/-! ## Layout selector: results -/

/-- C3. For `1 ≤ N ≤ 10` the lookup `layouts[N]` is the pair of the
specification's table, rows being `Height` and columns `Width`, and
`rows * columns ≥ N`. -/
theorem layouts_table (N : Int) (h1 : 1 ≤ N) (h2 : N ≤ 10) :
    specShape N = some ((layouts N).Height, (layouts N).Width)
      ∧ N ≤ (layouts N).Height * (layouts N).Width := by
  interval_cases N <;> decide

theorem layouts_table_witness :
    (1 : Int) ≤ 5 ∧ (5 : Int) ≤ 10
      ∧ specShape 5 = some ((layouts 5).Height, (layouts 5).Width)
      ∧ (5 : Int) ≤ (layouts 5).Height * (layouts 5).Width :=
  ⟨by decide, by decide, layouts_table 5 (by decide) (by decide)⟩

theorem layoutsTable_lookup_none (N : Int) (h : 10 < N) : layoutsTable.lookup N = none := by
  have e1 : (N == 1) = false := by simp; omega
  have e2 : (N == 2) = false := by simp; omega
  have e3 : (N == 3) = false := by simp; omega
  have e4 : (N == 4) = false := by simp; omega
  have e5 : (N == 5) = false := by simp; omega
  have e6 : (N == 6) = false := by simp; omega
  have e7 : (N == 7) = false := by simp; omega
  have e8 : (N == 8) = false := by simp; omega
  have e9 : (N == 9) = false := by simp; omega
  have e10 : (N == 10) = false := by simp; omega
  simp [layoutsTable, List.lookup, e1, e2, e3, e4, e5, e6, e7, e8, e9, e10]

/-- C8, as the claim states it, fails: for eleven instances the lookup gives
the zero layout, which is not the layout of ten instances. -/
theorem layouts_eleven_not_fallback :
    (11 : Int) > 10 ∧ layouts 11 = { Width := 0, Height := 0 }
      ∧ layouts 10 = { Width := 3, Height := 4 } ∧ layouts 11 ≠ layouts 10 := by
  decide

/-- C8, amended. For every count above ten the lookup `layouts[N]` finds no
entry and gives the zero value of `Layout`: zero rows and zero columns. -/
theorem layouts_above_ten (N : Int) (h : 10 < N) :
    layouts N = { Width := 0, Height := 0 } := by
  unfold layouts
  rw [layoutsTable_lookup_none N h]

theorem layouts_above_ten_witness :
    (10 : Int) < 11 ∧ layouts 11 = { Width := 0, Height := 0 } :=
  ⟨by decide, layouts_above_ten 11 (by decide)⟩

/-! ## Session attacher: results -/

/-- C9, as the claim states it, fails: on normal completion after a failing
copy loop, when the deferred `terminal.Restore` returns an error, the function
returns nil with the pseudo-terminal closed and the terminal left in raw mode,
not in its original mode. -/
theorem attach_restore_failure_leaves_raw :
    attachRestoreFails.startOk = true
      ∧ (attachToTmuxSession attachRestoreFails
          { termMode := false, pty := PtyHandle.unallocated }).exit = AttachExit.returnedNil
      ∧ (attachToTmuxSession attachRestoreFails
          { termMode := false, pty := PtyHandle.unallocated }).state.pty = PtyHandle.closed
      ∧ (attachToTmuxSession attachRestoreFails
          { termMode := false, pty := PtyHandle.unallocated }).state.termMode = true
      ∧ (attachToTmuxSession attachRestoreFails
          { termMode := false, pty := PtyHandle.unallocated }).state.termMode ≠ false := by
  decide

/-- C9, amended. Whenever the pseudo-terminal was allocated, on every exit of
`attachToTmuxSession` the deferred calls made are `terminal.Restore` with the
mode saved on entry, when raw mode was entered, followed by `ptmx.Close()`;
the exit is the panic exactly when raw mode could not be entered; the handle
is closed when `Close` succeeds; the terminal is in its original mode when raw
mode was not entered or `Restore` succeeds, and is left in raw mode when
`Restore` fails.  The result of the copy loop plays no part. -/
theorem attach_best_effort (Mode : Type) (env : AttachEnv Mode) (s : AttachState Mode)
    (hstart : env.startOk = true) :
    (attachToTmuxSession env s).deferredCalls
        = (if env.makeRawOk then [Deferred.restore s.termMode, Deferred.closePty]
            else [Deferred.closePty])
      ∧ (attachToTmuxSession env s).exit
        = (if env.makeRawOk then AttachExit.returnedNil else AttachExit.panicked)
      ∧ (env.closeOk = true → (attachToTmuxSession env s).state.pty = PtyHandle.closed)
      ∧ (env.makeRawOk = false → (attachToTmuxSession env s).state.termMode = s.termMode)
      ∧ (env.makeRawOk = true → env.restoreOk = true →
          (attachToTmuxSession env s).state.termMode = s.termMode)
      ∧ (env.makeRawOk = true → env.restoreOk = false →
          (attachToTmuxSession env s).state.termMode = env.rawMode s.termMode) := by
  unfold attachToTmuxSession
  rw [if_pos hstart]
  cases hraw : env.makeRawOk <;> cases hres : env.restoreOk <;> cases hclo : env.closeOk <;>
    simp [runDeferred, runDeferredCall, hres, hclo]

theorem attach_best_effort_witness :
    attachAllOk.startOk = true
      ∧ ((attachToTmuxSession attachAllOk
            { termMode := false, pty := PtyHandle.unallocated }).deferredCalls
          = (if attachAllOk.makeRawOk then [Deferred.restore false, Deferred.closePty]
              else [Deferred.closePty])
        ∧ (attachToTmuxSession attachAllOk
            { termMode := false, pty := PtyHandle.unallocated }).exit
          = (if attachAllOk.makeRawOk then AttachExit.returnedNil else AttachExit.panicked)
        ∧ (attachAllOk.closeOk = true →
            (attachToTmuxSession attachAllOk
              { termMode := false, pty := PtyHandle.unallocated }).state.pty
              = PtyHandle.closed)
        ∧ (attachAllOk.makeRawOk = false →
            (attachToTmuxSession attachAllOk
              { termMode := false, pty := PtyHandle.unallocated }).state.termMode = false)
        ∧ (attachAllOk.makeRawOk = true → attachAllOk.restoreOk = true →
            (attachToTmuxSession attachAllOk
              { termMode := false, pty := PtyHandle.unallocated }).state.termMode = false)
        ∧ (attachAllOk.makeRawOk = true → attachAllOk.restoreOk = false →
            (attachToTmuxSession attachAllOk
              { termMode := false, pty := PtyHandle.unallocated }).state.termMode
              = attachAllOk.rawMode false))
      ∧ attachAllOk.makeRawOk = true ∧ attachAllOk.restoreOk = true
      ∧ attachAllOk.rawMode false = true
      ∧ (attachToTmuxSession attachAllOk
          { termMode := false, pty := PtyHandle.unallocated }).deferredCalls
          = [Deferred.restore false, Deferred.closePty]
      ∧ (attachToTmuxSession attachAllOk
          { termMode := false, pty := PtyHandle.unallocated }).state.termMode = false
      ∧ (attachToTmuxSession attachAllOk
          { termMode := false, pty := PtyHandle.unallocated }).state.pty = PtyHandle.closed :=
  ⟨rfl, attach_best_effort Bool attachAllOk { termMode := false, pty := PtyHandle.unallocated }
    rfl, rfl, rfl, rfl, rfl, rfl, rfl⟩

/-! ## Pane builder: auxiliary results -/

theorem exec_eq_allSucceed (exec : Exec) (hexec : ∀ tr c, exec tr c = true) :
    exec = allSucceed :=
  funext fun tr => funext fun c => hexec tr c

theorem list_small_cases {α : Type} (P : List α → Prop) (l : List α)
    (h1 : 1 ≤ l.length) (h2 : l.length ≤ 10)
    (c1 : ∀ a, P [a])
    (c2 : ∀ a b, P [a, b])
    (c3 : ∀ a b c, P [a, b, c])
    (c4 : ∀ a b c d, P [a, b, c, d])
    (c5 : ∀ a b c d e, P [a, b, c, d, e])
    (c6 : ∀ a b c d e f, P [a, b, c, d, e, f])
    (c7 : ∀ a b c d e f g, P [a, b, c, d, e, f, g])
    (c8 : ∀ a b c d e f g h, P [a, b, c, d, e, f, g, h])
    (c9 : ∀ a b c d e f g h i, P [a, b, c, d, e, f, g, h, i])
    (c10 : ∀ a b c d e f g h i j, P [a, b, c, d, e, f, g, h, i, j]) : P l := by
  match l, h1, h2 with
  | [], h, _ => simp at h
  | [a], _, _ => exact c1 a
  | [a, b], _, _ => exact c2 a b
  | [a, b, c], _, _ => exact c3 a b c
  | [a, b, c, d], _, _ => exact c4 a b c d
  | [a, b, c, d, e], _, _ => exact c5 a b c d e
  | [a, b, c, d, e, f], _, _ => exact c6 a b c d e f
  | [a, b, c, d, e, f, g], _, _ => exact c7 a b c d e f g
  | [a, b, c, d, e, f, g, h], _, _ => exact c8 a b c d e f g h
  | [a, b, c, d, e, f, g, h, i], _, _ => exact c9 a b c d e f g h i
  | [a, b, c, d, e, f, g, h, i, j], _, _ => exact c10 a b c d e f g h i j
  | _ :: _ :: _ :: _ :: _ :: _ :: _ :: _ :: _ :: _ :: _ :: _, _, h => simp at h

theorem paneBuilder_small (d : String) (names : List String)
    (h1 : 1 ≤ names.length) (h2 : names.length ≤ 10) :
    paneBuilder allSucceed d names = (Outcome.ok (), cmdSequence d names) := by
  refine list_small_cases
    (fun l => paneBuilder allSucceed d l = (Outcome.ok (), cmdSequence d l))
    names h1 h2 ?_ ?_ ?_ ?_ ?_ ?_ ?_ ?_ ?_ ?_ <;> intros <;>
    simp [cmdSequence, specVertical, specHorizontal, specRowOf, specRows, specColumns, specShape,
      layouts,
      layoutsTable, List.lookup, List.enum, List.enumFrom, paneBuilder, vsplitLoop, hsplitLoop,
      allSucceed]

theorem Itoa_natCast (n : Nat) : Itoa ((n : Nat) : Int) = toString n := by
  rfl

theorem cmdSequence_eq_specSequence (d : String) (names : List String) :
    cmdSequence d names = specSequence d names := by
  unfold cmdSequence specSequence
  simp only [newSessionCmd, splitVCmd, splitHCmd, selectLayoutCmd, setwCmd, boshSSHCmd,
    Itoa_natCast]

theorem specShape_layouts (N : Nat) (h1 : 1 ≤ N) (h2 : N ≤ 10) :
    (specRows N : Int) = (layouts (N : Int)).Height
      ∧ (specColumns N : Int) = (layouts (N : Int)).Width := by
  interval_cases N <;> decide

theorem isPaneCreating_newSession (s : String) : isPaneCreating (newSessionCmd s) = true := by
  rfl

theorem isPaneCreating_splitV (s : String) : isPaneCreating (splitVCmd s) = true := by
  rfl

theorem isPaneCreating_splitH (y : Int) (s : String) : isPaneCreating (splitHCmd y s) = true := by
  rfl

theorem isPaneCreating_selectLayout : isPaneCreating selectLayoutCmd = false := by
  rfl

theorem isPaneCreating_setw : isPaneCreating setwCmd = false := by
  rfl

theorem take_two_newSession (s : String) :
    (newSessionCmd s).take 2 = ["tmux", "new-session"] := by
  rfl

theorem take_two_splitV (s : String) : (splitVCmd s).take 2 = ["tmux", "split-window"] := by
  rfl

theorem take_two_splitH (y : Int) (s : String) :
    (splitHCmd y s).take 2 = ["tmux", "split-window"] := by
  rfl

theorem shellCommand_newSession (s : String) : shellCommand (newSessionCmd s) = some s := by
  rfl

theorem shellCommand_splitV (s : String) : shellCommand (splitVCmd s) = some s := by
  rfl

theorem shellCommand_splitH (y : Int) (s : String) : shellCommand (splitHCmd y s) = some s := by
  rfl

theorem specVertical_add_specHorizontal (N : Nat) :
    specVertical N + specHorizontal N = N - 1 := by
  unfold specHorizontal specVertical
  omega

theorem filter_paneCreating_self (l : List Cmd) (h : ∀ c ∈ l, isPaneCreating c = true) :
    l.filter isPaneCreating = l :=
  List.filter_eq_self.mpr h

theorem view_splitV_list (d : String) (l : List String) :
    List.map (fun c => (List.take 2 c, shellCommand c))
        (List.filter isPaneCreating (List.map (fun j => splitVCmd (boshSSHCmd d j)) l))
      = l.map (fun j => (["tmux", "split-window"], some (boshSSHCmd d j))) := by
  rw [filter_paneCreating_self]
  · rw [List.map_map]
    apply List.map_congr_left
    intro j _
    simp only [Function.comp, take_two_splitV, shellCommand_splitV]
  · intro c hc
    obtain ⟨j, _, rfl⟩ := List.mem_map.mp hc
    exact isPaneCreating_splitV _

theorem view_splitH_list (d : String) (row : Nat → Nat) (l : List String) :
    List.map (fun c => (List.take 2 c, shellCommand c))
        (List.filter isPaneCreating
          (List.map (fun kj : Nat × String => splitHCmd ((row kj.1 : Nat) : Int)
            (boshSSHCmd d kj.2)) l.enum))
      = l.map (fun j => (["tmux", "split-window"], some (boshSSHCmd d j))) := by
  rw [filter_paneCreating_self]
  · rw [List.map_map]
    have hsnd : l = l.enum.map Prod.snd := (List.enum_map_snd l).symm
    conv_rhs => rw [hsnd, List.map_map]
    apply List.map_congr_left
    intro kj _
    simp only [Function.comp, take_two_splitH, shellCommand_splitH]
  · intro c hc
    obtain ⟨kj, _, rfl⟩ := List.mem_map.mp hc
    exact isPaneCreating_splitH _ _

theorem paneCommands_cmdSequence (d : String) (names : List String) (h1 : 1 ≤ names.length) :
    (paneCommands (cmdSequence d names)).map (fun c => (c.take 2, shellCommand c))
      = (["tmux", "new-session"], some (boshSSHCmd d (names.headD "")))
        :: (names.drop 1).map (fun j => (["tmux", "split-window"], some (boshSSHCmd d j))) := by
  match names, h1 with
  | a :: rest, _ =>
    unfold cmdSequence paneCommands
    have hlen : specVertical (a :: rest).length + specHorizontal (a :: rest).length
        = rest.length := by
      rw [specVertical_add_specHorizontal]; simp
    generalize specVertical (a :: rest).length = v at hlen ⊢
    generalize specHorizontal (a :: rest).length = h at hlen ⊢
    generalize specRowOf (a :: rest).length = row
    have hrest : rest.take v ++ (rest.drop v).take h = rest := by
      rw [← List.take_add, hlen, List.take_length]
    rw [Nat.add_comm 1 v, List.drop_succ_cons]
    simp only [List.filter_append, List.map_append, List.take, List.drop, List.map_cons,
      List.map_nil, List.filter_cons, List.filter_nil, isPaneCreating_newSession,
      isPaneCreating_selectLayout, isPaneCreating_setw, if_true, Bool.false_eq_true, if_false,
      List.append_nil, List.nil_append, List.cons_append, take_two_newSession,
      shellCommand_newSession, List.headD_cons]
    congr 1
    rw [view_splitV_list, view_splitH_list, ← List.map_append, hrest]

theorem specRow_bounds (N : Nat) (h1 : 1 ≤ N) (h2 : N ≤ 10) :
    (∀ k, k < specHorizontal N → specRowOf N k < specRows N)
      ∧ (∀ r, r < specRows N →
          ((List.range (specHorizontal N)).filter (fun k => specRowOf N k = r)).length
            ≤ specColumns N - 1) := by
  interval_cases N <;> decide


/-! ## Pane builder: the loops only issue `split-window` commands -/

theorem vsplitLoop_forall (P : Cmd → Prop) (hP : ∀ s, P (splitVCmd s)) (exec : Exec)
    (d : String) (names : List String) (layout : Layout) :
    ∀ (fuel : Nat) (y : Int) (tp : Nat) (tr : List Cmd), (∀ c ∈ tr, P c) →
      ∀ c ∈ (vsplitLoop exec d names layout fuel y tp tr).2, P c := by
  intro fuel
  induction fuel with
  | zero =>
    intro y tp tr htr
    unfold vsplitLoop
    split <;> exact htr
  | succ n ih =>
    intro y tp tr htr
    have hext : ∀ s, ∀ c ∈ tr ++ [splitVCmd s], P c := by
      intro s c hc
      rcases List.mem_append.mp hc with h | h
      · exact htr c h
      · rw [List.mem_singleton.mp h]; exact hP s
    unfold vsplitLoop
    by_cases hy : y < layout.Height
    · rw [if_pos hy]
      cases hj : names[tp]? with
      | none => exact htr
      | some job =>
        dsimp only
        by_cases he : exec tr (splitVCmd (boshSSHCmd d job)) = true
        · rw [if_pos he]
          by_cases hb : tp + 1 ≥ names.length
          · rw [if_pos hb]; exact hext _
          · rw [if_neg hb]; exact ih _ _ _ (hext _)
        · rw [if_neg he]; exact hext _
    · rw [if_neg hy]; exact htr

theorem hsplitLoop_forall (P : Cmd → Prop) (hP : ∀ y s, P (splitHCmd y s)) (exec : Exec)
    (d : String) (names : List String) (layout : Layout) :
    ∀ (fuel : Nat) (x y : Int) (tp : Nat) (tr : List Cmd), (∀ c ∈ tr, P c) →
      ∀ c ∈ (hsplitLoop exec d names layout fuel x y tp tr).2, P c := by
  intro fuel
  induction fuel with
  | zero =>
    intro x y tp tr htr
    unfold hsplitLoop
    split <;> exact htr
  | succ n ih =>
    intro x y tp tr htr
    have hext : ∀ s, ∀ c ∈ tr ++ [splitHCmd y s], P c := by
      intro s c hc
      rcases List.mem_append.mp hc with h | h
      · exact htr c h
      · rw [List.mem_singleton.mp h]; exact hP y s
    unfold hsplitLoop
    by_cases hy : tp < names.length
    · rw [if_pos hy]
      cases hj : names[tp]? with
      | none => exact htr
      | some job =>
        dsimp only
        by_cases he : exec tr (splitHCmd y (boshSSHCmd d job)) = true
        · rw [if_pos he]
          by_cases hb : tp + 1 ≥ names.length
          · rw [if_pos hb]; exact hext _
          · rw [if_neg hb]
            split_ifs <;> first | exact hext _ | exact ih _ _ _ _ (hext _)
        · rw [if_neg he]; exact hext _
    · rw [if_neg hy]; exact htr

/-! ## Pane builder: the loops end within their iteration budget -/

theorem vsplitLoop_fuel (exec : Exec) (d : String) (names : List String) (layout : Layout) :
    ∀ (fuel : Nat) (y : Int) (tp : Nat) (tr : List Cmd), (layout.Height - y).toNat ≤ fuel →
      (vsplitLoop exec d names layout fuel y tp tr).1 ≠ Outcome.outOfFuel := by
  intro fuel
  induction fuel with
  | zero =>
    intro y tp tr hf
    unfold vsplitLoop
    have hy : ¬ y < layout.Height := by omega
    rw [if_neg hy]
    simp
  | succ n ih =>
    intro y tp tr hf
    unfold vsplitLoop
    by_cases hy : y < layout.Height
    · rw [if_pos hy]
      cases hj : names[tp]? with
      | none => simp
      | some job =>
        dsimp only
        by_cases he : exec tr (splitVCmd (boshSSHCmd d job)) = true
        · rw [if_pos he]
          by_cases hb : tp + 1 ≥ names.length
          · rw [if_pos hb]; simp
          · rw [if_neg hb]; exact ih _ _ _ (by omega)
        · rw [if_neg he]; simp
    · rw [if_neg hy]; simp

theorem hsplitLoop_fuel (exec : Exec) (d : String) (names : List String) (layout : Layout) :
    ∀ (fuel : Nat) (x y : Int) (tp : Nat) (tr : List Cmd), names.length - tp ≤ fuel →
      (hsplitLoop exec d names layout fuel x y tp tr).1 ≠ Outcome.outOfFuel := by
  intro fuel
  induction fuel with
  | zero =>
    intro x y tp tr hf
    unfold hsplitLoop
    have hy : ¬ tp < names.length := by omega
    rw [if_neg hy]
    simp
  | succ n ih =>
    intro x y tp tr hf
    unfold hsplitLoop
    by_cases hy : tp < names.length
    · rw [if_pos hy]
      cases hj : names[tp]? with
      | none => simp
      | some job =>
        dsimp only
        by_cases he : exec tr (splitHCmd y (boshSSHCmd d job)) = true
        · rw [if_pos he]
          by_cases hb : tp + 1 ≥ names.length
          · rw [if_pos hb]; simp
          · rw [if_neg hb]
            split_ifs <;> first | exact ih _ _ _ _ (by omega) | simp
        · rw [if_neg he]; simp
    · rw [if_neg hy]; simp

/-- The pane builder always ends, with a normal result or a panic: the
iteration budgets handed to the two loops are never exhausted. -/
theorem paneBuilder_total (exec : Exec) (d : String) (names : List String) :
    (paneBuilder exec d names).1 ≠ Outcome.outOfFuel := by
  unfold paneBuilder
  cases hj : names[0]? with
  | none => simp
  | some job0 =>
    dsimp only
    by_cases he : exec [] (newSessionCmd (boshSSHCmd d job0)) = true
    · rw [if_pos he]
      have hv := vsplitLoop_fuel exec d names (layouts (names.length : Int))
        (layouts (names.length : Int)).Height.toNat 1 1 [newSessionCmd (boshSSHCmd d job0)]
        (by omega)
      generalize vsplitLoop exec d names (layouts (names.length : Int))
        (layouts (names.length : Int)).Height.toNat 1 1 [newSessionCmd (boshSSHCmd d job0)]
        = rv at hv ⊢
      obtain ⟨o, tr1⟩ := rv
      cases o with
      | ok tp =>
        dsimp only
        have hh := hsplitLoop_fuel exec d names (layouts (names.length : Int)) names.length 0 0
          tp (tr1 ++ [selectLayoutCmd]) (by omega)
        generalize hsplitLoop exec d names (layouts (names.length : Int)) names.length 0 0
          tp (tr1 ++ [selectLayoutCmd]) = rh at hh ⊢
        obtain ⟨o2, tr2⟩ := rh
        cases o2 with
        | ok u => dsimp only; split_ifs <;> simp
        | panic p => simp
        | outOfFuel => exact absurd rfl hh
      | panic p => simp
      | outOfFuel => exact absurd rfl hv
    · rw [if_neg he]; simp

/-- A completed run of the pane builder ends with `setw synchronize-panes`, and
every earlier command is a `new-session`, a `split-window` or the
`select-layout` command. -/
theorem paneBuilder_ok_shape (P : Cmd → Prop) (hN : ∀ s, P (newSessionCmd s))
    (hV : ∀ s, P (splitVCmd s)) (hL : P selectLayoutCmd) (hH : ∀ y s, P (splitHCmd y s))
    (exec : Exec) (d : String) (names : List String) (T : List Cmd)
    (h : paneBuilder exec d names = (Outcome.ok (), T)) :
    ∃ pre, T = pre ++ [setwCmd] ∧ ∀ c ∈ pre, P c := by
  unfold paneBuilder at h
  cases hj : names[0]? with
  | none => rw [hj] at h; simp at h
  | some job0 =>
    rw [hj] at h
    dsimp only at h
    by_cases he : exec [] (newSessionCmd (boshSSHCmd d job0)) = true
    · rw [if_pos he] at h
      have hv := vsplitLoop_forall P hV exec d names (layouts (names.length : Int))
        (layouts (names.length : Int)).Height.toNat 1 1 [newSessionCmd (boshSSHCmd d job0)]
        (by intro c hc; rw [List.mem_singleton.mp hc]; exact hN _)
      generalize vsplitLoop exec d names (layouts (names.length : Int))
        (layouts (names.length : Int)).Height.toNat 1 1 [newSessionCmd (boshSSHCmd d job0)]
        = rv at hv h
      obtain ⟨o, tr1⟩ := rv
      cases o with
      | ok tp =>
        dsimp only at h hv
        have hh := hsplitLoop_forall P hH exec d names (layouts (names.length : Int))
          names.length 0 0 tp (tr1 ++ [selectLayoutCmd])
          (by
            intro c hc
            rcases List.mem_append.mp hc with hc | hc
            · exact hv c hc
            · rw [List.mem_singleton.mp hc]; exact hL)
        generalize hsplitLoop exec d names (layouts (names.length : Int)) names.length 0 0
          tp (tr1 ++ [selectLayoutCmd]) = rh at hh h
        obtain ⟨o2, tr2⟩ := rh
        cases o2 with
        | ok u =>
          dsimp only at h hh
          by_cases hs : exec tr2 setwCmd = true
          · rw [if_pos hs] at h
            exact ⟨tr2, (Prod.mk.inj h).2.symm, hh⟩
          · rw [if_neg hs] at h; simp at h
        | panic p => simp at h
        | outOfFuel => simp at h
      | panic p => simp at h
      | outOfFuel => simp at h
    · rw [if_neg he] at h; simp at h

theorem vsplitLoop_subset (exec : Exec) (d : String) (names : List String) (layout : Layout)
    (c0 : Cmd) :
    ∀ (fuel : Nat) (y : Int) (tp : Nat) (tr : List Cmd), c0 ∈ tr →
      c0 ∈ (vsplitLoop exec d names layout fuel y tp tr).2 := by
  intro fuel
  induction fuel with
  | zero =>
    intro y tp tr htr
    unfold vsplitLoop
    split <;> exact htr
  | succ n ih =>
    intro y tp tr htr
    have hext : ∀ c, c0 ∈ tr ++ [c] := fun c => List.mem_append_left _ htr
    unfold vsplitLoop
    by_cases hy : y < layout.Height
    · rw [if_pos hy]
      cases hj : names[tp]? with
      | none => exact htr
      | some job =>
        dsimp only
        by_cases he : exec tr (splitVCmd (boshSSHCmd d job)) = true
        · rw [if_pos he]
          by_cases hb : tp + 1 ≥ names.length
          · rw [if_pos hb]; exact hext _
          · rw [if_neg hb]; exact ih _ _ _ (hext _)
        · rw [if_neg he]; exact hext _
    · rw [if_neg hy]; exact htr

theorem hsplitLoop_subset (exec : Exec) (d : String) (names : List String) (layout : Layout)
    (c0 : Cmd) :
    ∀ (fuel : Nat) (x y : Int) (tp : Nat) (tr : List Cmd), c0 ∈ tr →
      c0 ∈ (hsplitLoop exec d names layout fuel x y tp tr).2 := by
  intro fuel
  induction fuel with
  | zero =>
    intro x y tp tr htr
    unfold hsplitLoop
    split <;> exact htr
  | succ n ih =>
    intro x y tp tr htr
    have hext : ∀ c, c0 ∈ tr ++ [c] := fun c => List.mem_append_left _ htr
    unfold hsplitLoop
    by_cases hy : tp < names.length
    · rw [if_pos hy]
      cases hj : names[tp]? with
      | none => exact htr
      | some job =>
        dsimp only
        by_cases he : exec tr (splitHCmd y (boshSSHCmd d job)) = true
        · rw [if_pos he]
          by_cases hb : tp + 1 ≥ names.length
          · rw [if_pos hb]; exact hext _
          · rw [if_neg hb]
            split_ifs <;> first | exact hext _ | exact ih _ _ _ _ (hext _)
        · rw [if_neg he]; exact hext _
    · rw [if_neg hy]; exact htr

/-- A completed run of the pane builder has issued a `new-session` command. -/
theorem paneBuilder_ok_newSession (exec : Exec) (d : String) (names : List String)
    (T : List Cmd) (h : paneBuilder exec d names = (Outcome.ok (), T)) :
    ∃ s, newSessionCmd s ∈ T := by
  unfold paneBuilder at h
  cases hj : names[0]? with
  | none => rw [hj] at h; simp at h
  | some job0 =>
    rw [hj] at h
    dsimp only at h
    refine ⟨boshSSHCmd d job0, ?_⟩
    by_cases he : exec [] (newSessionCmd (boshSSHCmd d job0)) = true
    · rw [if_pos he] at h
      have hv := vsplitLoop_subset exec d names (layouts (names.length : Int))
        (newSessionCmd (boshSSHCmd d job0))
        (layouts (names.length : Int)).Height.toNat 1 1 [newSessionCmd (boshSSHCmd d job0)]
        (List.mem_singleton.mpr rfl)
      generalize vsplitLoop exec d names (layouts (names.length : Int))
        (layouts (names.length : Int)).Height.toNat 1 1 [newSessionCmd (boshSSHCmd d job0)]
        = rv at hv h
      obtain ⟨o, tr1⟩ := rv
      cases o with
      | ok tp =>
        dsimp only at h hv
        have hh := hsplitLoop_subset exec d names (layouts (names.length : Int))
          (newSessionCmd (boshSSHCmd d job0)) names.length 0 0 tp (tr1 ++ [selectLayoutCmd])
          (List.mem_append_left _ hv)
        generalize hsplitLoop exec d names (layouts (names.length : Int)) names.length 0 0
          tp (tr1 ++ [selectLayoutCmd]) = rh at hh h
        obtain ⟨o2, tr2⟩ := rh
        cases o2 with
        | ok u =>
          dsimp only at h hh
          by_cases hs : exec tr2 setwCmd = true
          · rw [if_pos hs] at h
            rw [← (Prod.mk.inj h).2]
            exact List.mem_append_left _ hh
          · rw [if_neg hs] at h; simp at h
        | panic p => simp at h
        | outOfFuel => simp at h
      | panic p => simp at h
      | outOfFuel => simp at h
    · rw [if_neg he] at h; simp at h

theorem newSessionCmd_ne_setw (s : String) : newSessionCmd s ≠ setwCmd := by
  simp [newSessionCmd, setwCmd]

theorem splitVCmd_ne_setw (s : String) : splitVCmd s ≠ setwCmd := by
  simp [splitVCmd, setwCmd]

theorem splitHCmd_ne_setw (y : Int) (s : String) : splitHCmd y s ≠ setwCmd := by
  simp [splitHCmd, setwCmd]

theorem selectLayoutCmd_ne_setw : selectLayoutCmd ≠ setwCmd := by
  decide

/-! ## Pane builder: more than ten matched instances -/

/-- Above ten matched instances the lookup gives the zero layout: no vertical
split is made and the horizontal loop stops after its first split. -/
theorem paneBuilder_above_ten (d : String) (names : List String) (h : 10 < names.length) :
    ∃ a b rest, names = a :: b :: rest
      ∧ paneBuilder allSucceed d names
          = (Outcome.ok (),
              [newSessionCmd (boshSSHCmd d a), selectLayoutCmd,
                splitHCmd 0 (boshSSHCmd d b), setwCmd]) := by
  match names, h with
  | a :: b :: rest, h =>
    refine ⟨a, b, rest, rfl, ?_⟩
    have hl : layouts (((a :: b :: rest).length : Nat) : Int)
        = { Width := 0, Height := 0 } := by
      unfold layouts
      rw [layoutsTable_lookup_none _ (by exact_mod_cast h)]
    unfold paneBuilder
    rw [hl]
    simp [vsplitLoop, hsplitLoop, allSucceed]

/-- With succeeding commands the pane builder completes on every non-empty
list of matched instances. -/
theorem paneBuilder_completes (d : String) (names : List String) (hne : names ≠ []) :
    (paneBuilder allSucceed d names).1 = Outcome.ok () := by
  by_cases h : names.length ≤ 10
  · have h1 : 1 ≤ names.length := by
      cases names with
      | nil => exact absurd rfl hne
      | cons a rest => simp
    rw [paneBuilder_small d names h1 h]
  · obtain ⟨a, b, rest, _, hrun⟩ := paneBuilder_above_ten d names (by omega)
    rw [hrun]

/-! ## Pane builder: results -/

/-- C1. For one to ten matched instances and succeeding commands the pane
builder completes, its pane-creating commands are one `tmux new-session`
followed by `N-1` `tmux split-window`, `N` in all, and the shell command of
the `i`-th of them is the text `bosh -d <deployment> ssh <i-th matched
instance>`. -/
theorem paneBuilder_panes (exec : Exec) (d : String) (names : List String)
    (hexec : ∀ tr c, exec tr c = true) (h1 : 1 ≤ names.length) (h2 : names.length ≤ 10) :
    (paneBuilder exec d names).1 = Outcome.ok ()
      ∧ (paneCommands (paneBuilder exec d names).2).length = names.length
      ∧ (paneCommands (paneBuilder exec d names).2).map (fun c => c.take 2)
          = ["tmux", "new-session"]
            :: List.replicate (names.length - 1) ["tmux", "split-window"]
      ∧ (paneCommands (paneBuilder exec d names).2).map (fun c => c.getLast?)
          = names.map (fun j => some ("bosh -d " ++ d ++ " ssh " ++ j))
      ∧ (∀ i, i < names.length →
          ∃ c, (paneCommands (paneBuilder exec d names).2)[i]? = some c
            ∧ c.getLast? = some ("bosh -d " ++ d ++ " ssh " ++ names.getD i ""))
      ∧ paneCommands (paneBuilder exec d ["db/0", "db/1", "web/0", "web/1"]).2
          = [["tmux", "new-session", "-s", "bosh-ssh", "-d",
                "bosh -d " ++ d ++ " ssh " ++ "db/0"],
              ["tmux", "split-window", "-v", "bosh -d " ++ d ++ " ssh " ++ "db/1"],
              ["tmux", "split-window", "-t", "0", "-h", "bosh -d " ++ d ++ " ssh " ++ "web/0"],
              ["tmux", "split-window", "-t", "1", "-h",
                "bosh -d " ++ d ++ " ssh " ++ "web/1"]] := by
  rw [exec_eq_allSucceed exec hexec, paneBuilder_small d names h1 h2]
  have hview := paneCommands_cmdSequence d names h1
  have hfst := congrArg (List.map Prod.fst) hview
  have hsnd := congrArg (List.map Prod.snd) hview
  have hlen := congrArg List.length hview
  simp only [List.map_map, List.map_cons, List.length_map, List.length_cons,
    List.length_drop] at hfst hsnd hlen
  have hs : (Prod.snd ∘ fun c : Cmd => (List.take 2 c, shellCommand c))
      = fun c => c.getLast? := rfl
  have hf : (Prod.fst ∘ fun c : Cmd => (List.take 2 c, shellCommand c))
      = fun c => c.take 2 := rfl
  rw [hs] at hsnd
  rw [hf] at hfst
  have hshell : (paneCommands (cmdSequence d names)).map (fun c => c.getLast?)
      = names.map (fun j => some ("bosh -d " ++ d ++ " ssh " ++ j)) := by
    rw [hsnd]
    match names, h1 with
    | a :: rest, _ =>
      simp only [List.headD_cons, List.drop_succ_cons, List.drop_zero, List.map_cons,
        List.map_map]
      rfl
  have hlen2 : (paneCommands (cmdSequence d names)).length = names.length := by
    rw [hlen]; omega
  refine ⟨rfl, hlen2, ?_, hshell, ?_, rfl⟩
  · rw [hfst]
    match names, h1 with
    | a :: rest, _ => simp [List.eq_replicate_iff]
  · intro i hi
    have hi2 : i < (paneCommands (cmdSequence d names)).length := by rw [hlen2]; exact hi
    refine ⟨(paneCommands (cmdSequence d names))[i], List.getElem?_eq_getElem hi2, ?_⟩
    have hget := congrArg (fun l => l[i]?) hshell
    simp only [List.getElem?_map, List.getElem?_eq_getElem hi2, List.getElem?_eq_getElem hi,
      Option.map_some'] at hget
    rw [List.getD_eq_getElem _ _ hi]
    exact Option.some.inj hget

theorem paneBuilder_panes_witness :
    (∀ tr c, allSucceed tr c = true) ∧ 1 ≤ ["web/0", "web/1", "web/2"].length
      ∧ ["web/0", "web/1", "web/2"].length ≤ 10
      ∧ ((paneBuilder allSucceed "dep" ["web/0", "web/1", "web/2"]).1 = Outcome.ok ()
        ∧ (paneCommands (paneBuilder allSucceed "dep" ["web/0", "web/1", "web/2"]).2).length
            = ["web/0", "web/1", "web/2"].length
        ∧ (paneCommands (paneBuilder allSucceed "dep" ["web/0", "web/1", "web/2"]).2).map
              (fun c => c.take 2)
            = ["tmux", "new-session"]
              :: List.replicate (["web/0", "web/1", "web/2"].length - 1)
                  ["tmux", "split-window"]
        ∧ (paneCommands (paneBuilder allSucceed "dep" ["web/0", "web/1", "web/2"]).2).map
              (fun c => c.getLast?)
            = ["web/0", "web/1", "web/2"].map (fun j => some ("bosh -d " ++ "dep" ++ " ssh " ++ j))
        ∧ (∀ i, i < ["web/0", "web/1", "web/2"].length →
            ∃ c, (paneCommands
                (paneBuilder allSucceed "dep" ["web/0", "web/1", "web/2"]).2)[i]? = some c
              ∧ c.getLast?
                = some ("bosh -d " ++ "dep" ++ " ssh " ++ ["web/0", "web/1", "web/2"].getD i ""))
        ∧ paneCommands (paneBuilder allSucceed "dep" ["db/0", "db/1", "web/0", "web/1"]).2
            = [["tmux", "new-session", "-s", "bosh-ssh", "-d",
                  "bosh -d " ++ "dep" ++ " ssh " ++ "db/0"],
                ["tmux", "split-window", "-v", "bosh -d " ++ "dep" ++ " ssh " ++ "db/1"],
                ["tmux", "split-window", "-t", "0", "-h",
                  "bosh -d " ++ "dep" ++ " ssh " ++ "web/0"],
                ["tmux", "split-window", "-t", "1", "-h",
                  "bosh -d " ++ "dep" ++ " ssh " ++ "web/1"]])
      ∧ paneCommands (paneBuilder allSucceed "dep" ["web/0", "web/1", "web/2"]).2
          = [["tmux", "new-session", "-s", "bosh-ssh", "-d", "bosh -d dep ssh web/0"],
              ["tmux", "split-window", "-v", "bosh -d dep ssh web/1"],
              ["tmux", "split-window", "-t", "0", "-h", "bosh -d dep ssh web/2"]] :=
  ⟨fun _ _ => rfl, by decide, by decide,
    paneBuilder_panes allSucceed "dep" ["web/0", "web/1", "web/2"] (fun _ _ => rfl)
      (by decide) (by decide),
    by decide⟩

/-- C4, as the claim states it, fails: with eleven matched instances and
succeeding commands the pane builder completes after creating two panes. -/
theorem paneCount_eleven :
    elevenJobs ≠ [] ∧ elevenJobs.length = 11 ∧ (∀ tr c, allSucceed tr c = true)
      ∧ (paneBuilder allSucceed "dep" elevenJobs).1 = Outcome.ok ()
      ∧ paneCount (paneBuilder allSucceed "dep" elevenJobs).2 = 2
      ∧ paneCount (paneBuilder allSucceed "dep" elevenJobs).2 ≠ elevenJobs.length := by
  refine ⟨by decide, rfl, fun _ _ => rfl, rfl, rfl, ?_⟩
  decide

/-- C4, amended. For one to ten matched instances and succeeding commands the
pane builder completes and the number of panes it creates equals the number of
matched instances. -/
theorem paneCount_small (exec : Exec) (d : String) (names : List String)
    (hexec : ∀ tr c, exec tr c = true) (h1 : 1 ≤ names.length) (h2 : names.length ≤ 10) :
    (paneBuilder exec d names).1 = Outcome.ok ()
      ∧ paneCount (paneBuilder exec d names).2 = names.length := by
  rw [exec_eq_allSucceed exec hexec, paneBuilder_small d names h1 h2]
  refine ⟨rfl, ?_⟩
  have hlen := congrArg List.length (paneCommands_cmdSequence d names h1)
  simp only [List.length_map, List.length_cons, List.length_drop] at hlen
  unfold paneCount
  rw [hlen]
  omega

theorem paneCount_small_witness :
    (∀ tr c, allSucceed tr c = true) ∧ 1 ≤ ["db/0", "db/1"].length
      ∧ ["db/0", "db/1"].length ≤ 10
      ∧ ((paneBuilder allSucceed "dep" ["db/0", "db/1"]).1 = Outcome.ok ()
        ∧ paneCount (paneBuilder allSucceed "dep" ["db/0", "db/1"]).2
            = ["db/0", "db/1"].length) :=
  ⟨fun _ _ => rfl, by decide, by decide,
    paneCount_small allSucceed "dep" ["db/0", "db/1"] (fun _ _ => rfl) (by decide) (by decide)⟩

/-- C5, the code at the failing input. With no matched instance the pane
builder panics at `jobsNames[0]` with the runtime error `index out of range
[0] with length 0`, before the layout lookup and before any tmux command; the
same holds for a run from instances none of which matches. -/
theorem paneBuilder_empty (exec : Exec) (d : String) :
    paneBuilder exec d [] = (Outcome.panic (PanicValue.indexOutOfRange 0 0), [])
      ∧ instanceFilter ["bosh-ssh", "-d", d, "web"] [{ Group := "db", ID := "0" }]
          = Outcome.ok []
      ∧ filterAndBuild exec ["bosh-ssh", "-d", d, "web"] d [{ Group := "db", ID := "0" }]
          = (Outcome.panic (PanicValue.indexOutOfRange 0 0), []) := by
  refine ⟨rfl, rfl, rfl⟩

/-- C6, the code at the failing input. When `select-layout even-vertical`
fails and every other command succeeds, the run for one matched instance still
completes and issues `setw synchronize-panes` after the failed command. -/
theorem selectLayout_failure_ignored :
    failSelectLayout [newSessionCmd (boshSSHCmd "dep" "web/0")] selectLayoutCmd = false
      ∧ paneBuilder failSelectLayout "dep" ["web/0"]
          = (Outcome.ok (),
              [newSessionCmd (boshSSHCmd "dep" "web/0"), selectLayoutCmd, setwCmd]) := by
  decide

/-- C7. In every completed run of the pane builder on a non-empty list of
matched instances, `tmux setw synchronize-panes` occurs exactly once, as the
last command, so after every pane-creating command. -/
theorem synchronize_once_last (exec : Exec) (d : String) (names : List String)
    (T : List Cmd) (_hne : names ≠ [])
    (hdone : paneBuilder exec d names = (Outcome.ok (), T)) :
    T.count setwCmd = 1
      ∧ ∃ pre, T = pre ++ [setwCmd] ∧ setwCmd ∉ pre
          ∧ (∀ c ∈ T, isPaneCreating c = true → c ∈ pre)
          ∧ ∃ c ∈ pre, isPaneCreating c = true := by
  obtain ⟨pre, hT, hpre⟩ := paneBuilder_ok_shape (fun c => c ≠ setwCmd) newSessionCmd_ne_setw
    splitVCmd_ne_setw selectLayoutCmd_ne_setw splitHCmd_ne_setw exec d names T hdone
  have hnot : setwCmd ∉ pre := fun hmem => hpre setwCmd hmem rfl
  refine ⟨?_, pre, hT, hnot, ?_, ?_⟩
  · rw [hT, List.count_append, List.count_eq_zero.mpr hnot]
    simp
  · intro c hc hpane
    rw [hT] at hc
    rcases List.mem_append.mp hc with h | h
    · exact h
    · rw [List.mem_singleton.mp h, isPaneCreating_setw] at hpane
      exact absurd hpane (by decide)
  · obtain ⟨s, hs⟩ := paneBuilder_ok_newSession exec d names T hdone
    rw [hT] at hs
    rcases List.mem_append.mp hs with h | h
    · exact ⟨newSessionCmd s, h, isPaneCreating_newSession s⟩
    · exact absurd (List.mem_singleton.mp h) (newSessionCmd_ne_setw s)

theorem synchronize_once_last_witness :
    ["web/0", "web/1", "web/2"] ≠ []
      ∧ paneBuilder allSucceed "dep" ["web/0", "web/1", "web/2"]
          = (Outcome.ok (),
              [newSessionCmd (boshSSHCmd "dep" "web/0"), splitVCmd (boshSSHCmd "dep" "web/1"),
                selectLayoutCmd, splitHCmd 0 (boshSSHCmd "dep" "web/2"), setwCmd])
      ∧ (List.count setwCmd
            [newSessionCmd (boshSSHCmd "dep" "web/0"), splitVCmd (boshSSHCmd "dep" "web/1"),
              selectLayoutCmd, splitHCmd 0 (boshSSHCmd "dep" "web/2"), setwCmd] = 1
        ∧ ∃ pre,
            [newSessionCmd (boshSSHCmd "dep" "web/0"), splitVCmd (boshSSHCmd "dep" "web/1"),
              selectLayoutCmd, splitHCmd 0 (boshSSHCmd "dep" "web/2"), setwCmd]
              = pre ++ [setwCmd]
            ∧ setwCmd ∉ pre
            ∧ (∀ c ∈ [newSessionCmd (boshSSHCmd "dep" "web/0"),
                  splitVCmd (boshSSHCmd "dep" "web/1"), selectLayoutCmd,
                  splitHCmd 0 (boshSSHCmd "dep" "web/2"), setwCmd],
                isPaneCreating c = true → c ∈ pre)
            ∧ ∃ c ∈ pre, isPaneCreating c = true) :=
  ⟨by decide, by decide,
    synchronize_once_last allSucceed "dep" ["web/0", "web/1", "web/2"] _ (by decide)
      (by decide)⟩

/-- C10. For one to ten matched instances and succeeding commands the pane
builder completes and issues exactly the sequence of the specification, every
argument written out: one `new-session`, `min(rows-1, N-1)` vertical splits
`split-window -v` without target, `select-layout even-vertical`,
`N-1-min(rows-1, N-1)` horizontal splits `split-window -t <row> -h` of which
the `k`-th has the decimal text of `floor(k / (columns-1))` as its target, and
`setw synchronize-panes`, where `(rows, columns)` is the selected layout; the
target row stays below `rows` and no row receives more than `columns-1`
horizontal splits.  The end-to-end scenario of the specification runs as
announced. -/
theorem paneBuilder_sequence (exec : Exec) (d : String) (names : List String)
    (hexec : ∀ tr c, exec tr c = true) (h1 : 1 ≤ names.length) (h2 : names.length ≤ 10) :
    paneBuilder exec d names = (Outcome.ok (), specSequence d names)
      ∧ (specRows names.length : Int) = (layouts (names.length : Int)).Height
      ∧ (specColumns names.length : Int) = (layouts (names.length : Int)).Width
      ∧ (∀ k, k < specHorizontal names.length →
          specRowOf names.length k < specRows names.length)
      ∧ (∀ r, r < specRows names.length →
          ((List.range (specHorizontal names.length)).filter
              (fun k => specRowOf names.length k = r)).length
            ≤ specColumns names.length - 1)
      ∧ instanceFilter ["bosh-ssh", "-d", d, "web"] scenarioInstances
          = Outcome.ok ["web/0", "web/1", "web/2"]
      ∧ layouts 3 = { Height := 2, Width := 2 }
      ∧ filterAndBuild exec ["bosh-ssh", "-d", d, "web"] d scenarioInstances
          = (Outcome.ok (),
              [["tmux", "new-session", "-s", "bosh-ssh", "-d",
                  "bosh -d " ++ d ++ " ssh " ++ "web/0"],
                ["tmux", "split-window", "-v", "bosh -d " ++ d ++ " ssh " ++ "web/1"],
                ["tmux", "select-layout", "even-vertical"],
                ["tmux", "split-window", "-t", "0", "-h",
                  "bosh -d " ++ d ++ " ssh " ++ "web/2"],
                ["tmux", "setw", "synchronize-panes"]])
      ∧ paneBuilder exec d ["db/0", "db/1", "web/0", "web/1"]
          = (Outcome.ok (),
              [["tmux", "new-session", "-s", "bosh-ssh", "-d",
                  "bosh -d " ++ d ++ " ssh " ++ "db/0"],
                ["tmux", "split-window", "-v", "bosh -d " ++ d ++ " ssh " ++ "db/1"],
                ["tmux", "select-layout", "even-vertical"],
                ["tmux", "split-window", "-t", "0", "-h",
                  "bosh -d " ++ d ++ " ssh " ++ "web/0"],
                ["tmux", "split-window", "-t", "1", "-h",
                  "bosh -d " ++ d ++ " ssh " ++ "web/1"],
                ["tmux", "setw", "synchronize-panes"]]) := by
  rw [exec_eq_allSucceed exec hexec, ← cmdSequence_eq_specSequence]
  exact ⟨paneBuilder_small d names h1 h2, (specShape_layouts names.length h1 h2).1,
    (specShape_layouts names.length h1 h2).2, (specRow_bounds names.length h1 h2).1,
    (specRow_bounds names.length h1 h2).2, rfl, rfl, rfl, rfl⟩

theorem paneBuilder_sequence_witness :
    (∀ tr c, allSucceed tr c = true) ∧ 1 ≤ tenJobs.length ∧ tenJobs.length ≤ 10
      ∧ paneBuilder allSucceed "dep" tenJobs = (Outcome.ok (), specSequence "dep" tenJobs)
      ∧ specSequence "dep" tenJobs
          = [["tmux", "new-session", "-s", "bosh-ssh", "-d", "bosh -d dep ssh web/0"],
              ["tmux", "split-window", "-v", "bosh -d dep ssh web/1"],
              ["tmux", "split-window", "-v", "bosh -d dep ssh web/2"],
              ["tmux", "split-window", "-v", "bosh -d dep ssh web/3"],
              ["tmux", "select-layout", "even-vertical"],
              ["tmux", "split-window", "-t", "0", "-h", "bosh -d dep ssh web/4"],
              ["tmux", "split-window", "-t", "0", "-h", "bosh -d dep ssh web/5"],
              ["tmux", "split-window", "-t", "1", "-h", "bosh -d dep ssh web/6"],
              ["tmux", "split-window", "-t", "1", "-h", "bosh -d dep ssh web/7"],
              ["tmux", "split-window", "-t", "2", "-h", "bosh -d dep ssh web/8"],
              ["tmux", "split-window", "-t", "2", "-h", "bosh -d dep ssh web/9"],
              ["tmux", "setw", "synchronize-panes"]]
      ∧ (paneBuilder allSucceed "dep" tenJobs).2
          = [["tmux", "new-session", "-s", "bosh-ssh", "-d", "bosh -d dep ssh web/0"],
              ["tmux", "split-window", "-v", "bosh -d dep ssh web/1"],
              ["tmux", "split-window", "-v", "bosh -d dep ssh web/2"],
              ["tmux", "split-window", "-v", "bosh -d dep ssh web/3"],
              ["tmux", "select-layout", "even-vertical"],
              ["tmux", "split-window", "-t", "0", "-h", "bosh -d dep ssh web/4"],
              ["tmux", "split-window", "-t", "0", "-h", "bosh -d dep ssh web/5"],
              ["tmux", "split-window", "-t", "1", "-h", "bosh -d dep ssh web/6"],
              ["tmux", "split-window", "-t", "1", "-h", "bosh -d dep ssh web/7"],
              ["tmux", "split-window", "-t", "2", "-h", "bosh -d dep ssh web/8"],
              ["tmux", "split-window", "-t", "2", "-h", "bosh -d dep ssh web/9"],
              ["tmux", "setw", "synchronize-panes"]] :=
  ⟨fun _ _ => rfl, by decide, by decide,
    (paneBuilder_sequence allSucceed "dep" tenJobs (fun _ _ => rfl) (by decide) (by decide)).1,
    by decide, by decide⟩

end BoshSsh
